import Mathlib

/-!
Verification of the snooker simulation component (src/src/SnookerGame.tsx).

The development shallowly embeds the physics-relevant parts of the component:
the ball data model, the per-tick friction pass registered on the engine
beforeUpdate event, the collisionStart pocket handler, the pointer handlers
(onMouseDown, onMouseMove, onMouseUp), the session operations resetCueBall,
resetGame and applyPhysicsSettings, and the initial rack built by createBalls.
Numbers are exact reals; the JavaScript float operations sqrt, cos and atan2
are modelled by their exact counterparts.
-/

noncomputable section

open scoped Classical

-- ── Table dimensions (SnookerGame.tsx lines 17-23) ──────────────────────────

def TABLE_WIDTH : ℝ := 1200

def TABLE_HEIGHT : ℝ := 600

def CUSHION : ℝ := 40

def POCKET_R : ℝ := 22

def BALL_R : ℝ := 10

-- ── Vectors (Matter.Vector) ─────────────────────────────────────────────────

/-- A 2-D vector, as used by Matter.Vector and for positions, velocities and
forces of bodies. -/
@[ext]
structure Vec where
  x : ℝ
  y : ℝ

/-- Vector.sub a b, componentwise subtraction. -/
def Vec.sub (a b : Vec) : Vec := ⟨a.x - b.x, a.y - b.y⟩

/-- Vector.magnitude v = sqrt (v.x * v.x + v.y * v.y). -/
def magnitude (v : Vec) : ℝ := Real.sqrt (v.x * v.x + v.y * v.y)

-- ── Bodies (Matter.Body, restricted to the fields the component reads) ──────

/-- A rigid body. Fields mirror the Matter.js body properties the component
uses: label, position, velocity, angularVelocity, the isStatic and isSensor
flags, the friction coefficients, restitution, density, area, mass, and the
accumulated force and torque that Body.applyForce writes. The numeric id
models the Matter.js body id used by Composite.get and Composite.remove. -/
@[ext]
structure Ball where
  id : ℕ
  label : String
  position : Vec
  velocity : Vec
  angularVelocity : ℝ
  isStatic : Bool
  isSensor : Bool
  frictionAir : ℝ
  friction : ℝ
  restitution : ℝ
  density : ℝ
  area : ℝ
  mass : ℝ
  force : Vec
  torque : ℝ

/-- Body.applyForce body position force: adds the force to the accumulated
force of the body and adds the induced torque, computed from the offset of
the application point from the body position (cross product). -/
def applyForce (b : Ball) (pt : Vec) (f : Vec) : Ball :=
  { b with
    force := ⟨b.force.x + f.x, b.force.y + f.y⟩,
    torque := b.torque + ((pt.x - b.position.x) * f.y - (pt.y - b.position.y) * f.x) }

-- ── Friction pass (Events.on engine beforeUpdate, lines 786-812) ────────────

/-- The core of the per-body friction update made inside the beforeUpdate
callback (lines 790-810). The local speed is magnitude of the velocity; if
the speed is positive and below 0.15 the ball is fully stopped (velocity and
angular velocity set to zero, matching the early return); otherwise, when the
rolling friction coefficient rf is positive and the speed exceeds 0.15, the
velocity is rescaled by newSpeed divided by speed with
newSpeed = max 0 (speed - rf). -/
def frictionPassBody (rf : ℝ) (b : Ball) : Ball :=
  if magnitude b.velocity > 0 ∧ magnitude b.velocity < 0.15 then
    { b with velocity := ⟨0, 0⟩, angularVelocity := 0 }
  else if rf > 0 ∧ magnitude b.velocity > 0.15 then
    { b with velocity :=
        ⟨b.velocity.x * (max 0 (magnitude b.velocity - rf) / magnitude b.velocity),
         b.velocity.y * (max 0 (magnitude b.velocity - rf) / magnitude b.velocity)⟩ }
  else b

/-- The per-body function of the beforeUpdate handler: the handler filters all
bodies to the non-static, non-sensor ones and mutates each of those in place,
which is rendered functionally as a conditional update. -/
def beforeUpdateBody (rf : ℝ) (b : Ball) : Ball :=
  if !b.isStatic && !b.isSensor then frictionPassBody rf b else b

/-- The beforeUpdate handler over the whole body list (lines 786-812). -/
def beforeUpdateHandler (rf : ℝ) (bodies : List Ball) : List Ball :=
  bodies.map (beforeUpdateBody rf)

/-- The action of the friction pass on the scalar speed of a body, read off
from frictionPassBody: used to reason about repeated ticks. -/
def speedStep (rf : ℝ) (s : ℝ) : ℝ :=
  if s > 0 ∧ s < 0.15 then 0
  else if rf > 0 ∧ s > 0.15 then max 0 (s - rf)
  else s

-- ── Concrete test bodies ────────────────────────────────────────────────────

/-- A dynamic ball with the creation-time physics defaults of BALL_OPTS
(lines 57-72), resting at position 300,300, moving along the x axis with the
given velocity component. Used as concrete input for witnesses. -/
def testBall (i : ℕ) (lab : String) (vx : ℝ) : Ball :=
  { id := i, label := lab, position := ⟨300, 300⟩, velocity := ⟨vx, 0⟩,
    angularVelocity := 0, isStatic := false, isSensor := false,
    frictionAir := 0.018, friction := 0.05, restitution := 0.85,
    density := 0.005, area := Real.pi * (BALL_R * BALL_R),
    mass := 0.005 * (Real.pi * (BALL_R * BALL_R)), force := ⟨0, 0⟩, torque := 0 }

-- ── Gesture and session state ───────────────────────────────────────────────

/-- The transient pointer-gesture state of the component: the isDraggingRef
and dragStartRef refs, the cueLineRef ref, and the isAiming and shotPower
React states (lines 322-329). -/
@[ext]
structure GestureState where
  isDragging : Bool
  dragStart : Option Vec
  cueLine : Option (Vec × Vec)
  isAiming : Bool
  shotPower : ℤ

/-- The gesture state with no drag in progress. -/
def idleGesture : GestureState :=
  { isDragging := false, dragStart := none, cueLine := none,
    isAiming := false, shotPower := 0 }

/-- The session state: the world body list of the engine, the cueBallRef ref,
the pottedBalls and isCueBallPotted React states, the gesture state, the
rollingFrictionRef ref, and a counter modelling the Matter.js fresh body id
supply used when new bodies are created. -/
@[ext]
structure GameState where
  bodies : List Ball
  cueBall : Ball
  pottedBalls : List String
  isCueBallPotted : Bool
  gesture : GestureState
  rollingFriction : ℝ
  nextBodyId : ℕ

-- ── allBallsStopped (lines 386-396) ─────────────────────────────────────────

/-- allBallsStopped: every non-static, non-sensor body has speed below 0.1. -/
def allBallsStopped (bodies : List Ball) : Prop :=
  ∀ b ∈ bodies.filter (fun b => !b.isStatic && !b.isSensor),
    magnitude b.velocity < 0.1

-- ── Pointer handlers (lines 503-560) ────────────────────────────────────────

/-- onMouseDown (lines 503-515): if not every ball is stopped the event is
ignored; otherwise, when the pointer is within BALL_R * 4 of the cue ball
position, the drag starts: isDragging is set, the drag origin records the cue
ball position, and the aiming display turns on. -/
def onMouseDown (bodies : List Ball) (cue : Ball) (st : GestureState) (pos : Vec) :
    GestureState :=
  if ¬ allBallsStopped bodies then st
  else if magnitude (Vec.sub pos cue.position) < BALL_R * 4 then
    { st with isDragging := true, dragStart := some ⟨cue.position.x, cue.position.y⟩,
              isAiming := true }
  else st

/-- onMouseMove (lines 517-530): while dragging, the power display is set to
round (power / 300 * 100) for the pull distance clamped at 300, and the cue
line is recorded from the cue ball position to the pointer. -/
def onMouseMove (st : GestureState) (cue : Ball) (pos : Vec) : GestureState :=
  if !st.isDragging || st.dragStart.isNone then st
  else
    { st with
      shotPower := round (min (magnitude (Vec.sub cue.position pos)) 300 / 300 * 100),
      cueLine := some (cue.position, pos) }

/-- Models Math.cos (Math.atan2 y x) through the identity
cos (atan2 y x) = x / sqrt (x * x + y * y), valid whenever the vector is not
the origin; the only call site guards the pull distance above 5, so the
argument vector there is never zero. -/
def cosAtan2 (y x : ℝ) : ℝ := x / Real.sqrt (x * x + y * y)

/-- Models Math.sin (Math.atan2 y x), as in cosAtan2. -/
def sinAtan2 (y x : ℝ) : ℝ := y / Real.sqrt (x * x + y * y)

/-- onMouseUp (lines 532-560): while dragging, the pull vector is the cue
ball position minus the pointer position, its length is clamped at 300 into
power, and force = power / 300 * 0.08. When power exceeds 5, Body.applyForce
is called at the cue ball position with the force vector of magnitude force
pointing along the pull vector (cos and sin of atan2 of the components).
Either way the gesture state is fully discarded: isDragging false, dragStart
and cueLine cleared, aiming off, shot power display 0. -/
def onMouseUp (st : GestureState) (cue : Ball) (pos : Vec) : GestureState × Ball :=
  if !st.isDragging || st.dragStart.isNone then (st, cue)
  else
    (idleGesture,
     if min (magnitude (Vec.sub cue.position pos)) 300 > 5 then
       applyForce cue cue.position
         ⟨cosAtan2 (cue.position.y - pos.y) (cue.position.x - pos.x) *
            (min (magnitude (Vec.sub cue.position pos)) 300 / 300 * 0.08),
          sinAtan2 (cue.position.y - pos.y) (cue.position.x - pos.x) *
            (min (magnitude (Vec.sub cue.position pos)) 300 / 300 * 0.08)⟩
     else cue)

/-- The local power of the release handler (line 541): the pull distance from
the cue ball position to the pointer, clamped at 300. -/
def pullPower (cue : Ball) (pos : Vec) : ℝ :=
  min (magnitude (Vec.sub cue.position pos)) 300

/-- The scalar by which the release handler multiplies the pull vector: the
force magnitude power / 300 * 0.08 divided by the unclamped pull distance. -/
def shotForceScale (cue : Ball) (pos : Vec) : ℝ :=
  pullPower cue pos / 300 * 0.08 / magnitude (Vec.sub cue.position pos)

-- ── Pocket handler (Events.on engine collisionStart, lines 462-488) ─────────

/-- Composite.remove by body id: the body list without the given body. -/
def removeBody (bodies : List Ball) (x : Ball) : List Ball :=
  bodies.filter (fun b => b.id != x.id)

/-- In-place replacement of the body with the id of the given ball: models a
mutation of a body object that is shared between a ref and the world list. -/
def updateById (bodies : List Ball) (x : Ball) : List Ball :=
  bodies.map (fun b => if b.id == x.id then x else b)

/-- The effect of the pocket handler once a pair has been classified into a
pocket and a ball (lines 476-487): a static ball is ignored; the cue ball is
removed and flagged in hand; any other ball is removed and its label appended
to the potted list. -/
def pocketBall (s : GameState) (ball : Ball) : GameState :=
  if ball.isStatic then s
  else if ball.label = "cue" then
    { s with bodies := removeBody s.bodies ball, isCueBallPotted := true }
  else
    { s with bodies := removeBody s.bodies ball,
             pottedBalls := s.pottedBalls ++ [ball.label] }

/-- Models String.startsWith, used by the pocket handler on body labels,
through the character lists of the two strings: the prefix test on the list
of characters (the library implementation compares the byte ranges of the
same strings). -/
def strStartsWith (s p : String) : Bool := p.data.isPrefixOf s.data

/-- The per-pair body of the collisionStart handler (lines 463-487): the body
whose label starts with the pocket prefix is the pocket (bodyA checked
first), the other one the ball; with no pocket in the pair nothing happens. -/
def handlePair (s : GameState) (bodyA bodyB : Ball) : GameState :=
  if strStartsWith bodyA.label "pocket-" then pocketBall s bodyB
  else if strStartsWith bodyB.label "pocket-" then pocketBall s bodyA
  else s

/-- The collisionStart handler over the event pair list (lines 462-488). -/
def collisionStartHandler (s : GameState) (pairs : List (Ball × Ball)) : GameState :=
  pairs.foldl (fun acc p => handlePair acc p.1 p.2) s

-- ── resetCueBall (lines 369-383) ────────────────────────────────────────────

/-- The cue ball after Body.setPosition to the start spot, Body.setVelocity
to zero and Body.setAngularVelocity to zero (lines 374-376). -/
def cueAtStart (cue : Ball) : Ball :=
  { cue with position := ⟨CUSHION + TABLE_WIDTH * 0.25, CUSHION + TABLE_HEIGHT / 2⟩,
             velocity := ⟨0, 0⟩, angularVelocity := 0 }

/-- resetCueBall (lines 369-383): mutate the referenced cue ball to its start
state (visible through the world list when the body is present), then re-add
it to the world exactly when Composite.get finds no body with its id, and
clear the cue-ball-potted flag. -/
def resetCueBall (s : GameState) : GameState :=
  { s with
    cueBall := cueAtStart s.cueBall,
    bodies :=
      if s.bodies.any (fun b => b.id == s.cueBall.id) then
        updateById s.bodies (cueAtStart s.cueBall)
      else
        updateById s.bodies (cueAtStart s.cueBall) ++ [cueAtStart s.cueBall],
    isCueBallPotted := false }

-- ── createBalls (lines 267-313) and resetGame (lines 399-416) ───────────────

/-- createBall (lines 82-97): a circle body of radius BALL_R with the
BALL_OPTS physics constants; the render colour is kept only as the colour
argument of the call sites and not stored. The id argument models the fresh
Matter.js body id, and the area is the disc area with mass derived as
density times area. -/
def createBall (x y : ℝ) (color : String) (label : String) (i : ℕ) : Ball :=
  { id := i, label := label, position := ⟨x, y⟩, velocity := ⟨0, 0⟩,
    angularVelocity := 0, isStatic := false, isSensor := false,
    frictionAir := 0.018, friction := 0.05, restitution := 0.85,
    density := 0.005, area := Real.pi * (BALL_R * BALL_R),
    mass := 0.005 * (Real.pi * (BALL_R * BALL_R)), force := ⟨0, 0⟩, torque := 0 }

/-- One red ball of the triangle (lines 287-296). The running ballIndex of
the source at row and col equals row * (row + 1) / 2 + col, which also
offsets the fresh ids after the cue ball. -/
def redBall (firstId row col : ℕ) : Ball :=
  createBall
    (CUSHION + TABLE_WIDTH * 0.68 + (row : ℝ) * (BALL_R * 2.15) * Real.cos (Real.pi / 6))
    (CUSHION + TABLE_HEIGHT / 2 + ((col : ℝ) - (row : ℝ) / 2) * (BALL_R * 2.15))
    "#cc0000"
    ("red-" ++ toString (row * (row + 1) / 2 + col))
    (firstId + 1 + (row * (row + 1) / 2 + col))

/-- The triangle of 15 reds (lines 283-296). -/
def redBalls (firstId : ℕ) : List Ball :=
  (List.range 5).flatMap (fun row => (List.range (row + 1)).map (redBall firstId row))

/-- The six colour balls on their spots (lines 299-310). -/
def colourBalls (firstId : ℕ) : List Ball :=
  [createBall (CUSHION + TABLE_WIDTH * 0.2)
      (CUSHION + TABLE_HEIGHT / 2 - TABLE_HEIGHT * 0.22) "#f5d020" "yellow" (firstId + 16),
   createBall (CUSHION + TABLE_WIDTH * 0.2)
      (CUSHION + TABLE_HEIGHT / 2 + TABLE_HEIGHT * 0.22) "#0a7e3a" "green" (firstId + 17),
   createBall (CUSHION + TABLE_WIDTH * 0.2)
      (CUSHION + TABLE_HEIGHT / 2) "#7b3f00" "brown" (firstId + 18),
   createBall (CUSHION + TABLE_WIDTH * 0.5)
      (CUSHION + TABLE_HEIGHT / 2) "#1e40af" "blue" (firstId + 19),
   createBall (CUSHION + TABLE_WIDTH * 0.68 - (BALL_R * 2.15) * 1.5)
      (CUSHION + TABLE_HEIGHT / 2) "#e85d8a" "pink" (firstId + 20),
   createBall (CUSHION + TABLE_WIDTH * 0.89)
      (CUSHION + TABLE_HEIGHT / 2) "#111111" "black" (firstId + 21)]

/-- createBalls (lines 267-313): the cue ball at a quarter of the table width
from the left cushion at the vertical centre, then the reds, then the colour
balls. -/
def createBalls (firstId : ℕ) : Ball × List Ball :=
  (createBall (CUSHION + TABLE_WIDTH * 0.25) (CUSHION + TABLE_HEIGHT / 2)
      "#fffbe6" "cue" firstId,
   redBalls firstId ++ colourBalls firstId)

/-- resetGame (lines 399-416): remove every non-static, non-sensor body,
re-create the full rack, point the cue ball ref at the new cue ball, and
clear the potted list and the cue-ball-potted flag. -/
def resetGame (s : GameState) : GameState :=
  { s with
    bodies := s.bodies.filter (fun b => !(!b.isStatic && !b.isSensor))
      ++ ((createBalls s.nextBodyId).1 :: (createBalls s.nextBodyId).2),
    cueBall := (createBalls s.nextBodyId).1,
    pottedBalls := [],
    isCueBallPotted := false,
    nextBodyId := s.nextBodyId + 22 }

-- ── applyPhysicsSettings (lines 353-366) ────────────────────────────────────

/-- Body.setDensity: stores the density and re-derives mass as density times
area. -/
def setDensity (b : Ball) (dn : ℝ) : Ball :=
  { b with density := dn, mass := dn * b.area }

/-- The per-body update of applyPhysicsSettings (lines 360-363): set the air
friction and then Body.setDensity. -/
def settingsBodyUpdate (fAir dn : ℝ) (b : Ball) : Ball :=
  setDensity { b with frictionAir := fAir } dn

/-- applyPhysicsSettings (lines 353-366): store the rolling friction in the
ref read by the friction pass, and update every non-static, non-sensor body
in place. -/
def applyPhysicsSettings (fAir rf dn : ℝ) (s : GameState) : GameState :=
  { s with
    rollingFriction := rf,
    bodies := s.bodies.map (fun b =>
      if !b.isStatic && !b.isSensor then settingsBodyUpdate fAir dn b else b) }

-- ── System steps and the engine tick ────────────────────────────────────────

/-- The beforeUpdate event applied to the session state, reading the rolling
friction ref. -/
def frictionEvent (s : GameState) : GameState :=
  { s with bodies := beforeUpdateHandler s.rollingFriction s.bodies }

/-- The integration phase of Matter.Engine.update, internal to the physics
library: modelled as an arbitrary in-place per-body update (the library
updates each body from its velocity and force and never creates or removes
bodies there). -/
def engineIntegrate (f : Ball → Ball) (s : GameState) : GameState :=
  { s with bodies := s.bodies.map f }

/-- One engine tick with the handlers this component registers, in the
documented order of Matter.Engine.update: the beforeUpdate event (carrying
the friction pass) fires first, then integration, then collision detection
and resolution, and then the collisionStart notifications that drive the
pocket handler. -/
def engineTick (f : Ball → Ball) (pairs : List (Ball × Ball)) (s : GameState) :
    GameState :=
  collisionStartHandler (engineIntegrate f (frictionEvent s)) pairs

/-- The tick order claimed by the specification, for comparison: integrate,
resolve collisions, notify sensor contacts, and only then apply the friction
pass. -/
def specOrderTick (f : Ball → Ball) (pairs : List (Ball × Ball)) (s : GameState) :
    GameState :=
  frictionEvent (collisionStartHandler (engineIntegrate f s) pairs)

/-- The velocity-proportional air drag that the library integration applies
each tick (velocity scaled by 1 minus frictionAir), used as a concrete
integration phase. -/
def airDrag (fa : ℝ) (b : Ball) : Ball :=
  { b with velocity := ⟨b.velocity.x * (1 - fa), b.velocity.y * (1 - fa)⟩ }

/-- The events that can reach the session state between resets: an engine
integration phase, the beforeUpdate friction pass, a batch of collisionStart
pairs, the three pointer handlers, and a change of the global physics
settings. -/
inductive Step where
  | engineUpdate (f : Ball → Ball)
  | frictionPass
  | collisionStart (pairs : List (Ball × Ball))
  | mouseDown (pos : Vec)
  | mouseMove (pos : Vec)
  | mouseUp (pos : Vec)
  | setPhysics (fAir rf dn : ℝ)

/-- The effect of each step on the session state. -/
def stepRun : Step → GameState → GameState
  | .engineUpdate f, s => engineIntegrate f s
  | .frictionPass, s => frictionEvent s
  | .collisionStart pairs, s => collisionStartHandler s pairs
  | .mouseDown pos, s => { s with gesture := onMouseDown s.bodies s.cueBall s.gesture pos }
  | .mouseMove pos, s => { s with gesture := onMouseMove s.gesture s.cueBall pos }
  | .mouseUp pos, s =>
      { s with gesture := (onMouseUp s.gesture s.cueBall pos).1,
               cueBall := (onMouseUp s.gesture s.cueBall pos).2,
               bodies := updateById s.bodies (onMouseUp s.gesture s.cueBall pos).2 }
  | .setPhysics fAir rf dn, s => applyPhysicsSettings fAir rf dn s

-- ── Concrete session states for witnesses ───────────────────────────────────

/-- A pocket sensor body as built by createPockets (lines 117-126). -/
def pocket0 : Ball :=
  { id := 10, label := "pocket-0", position := ⟨38, 38⟩, velocity := ⟨0, 0⟩,
    angularVelocity := 0, isStatic := true, isSensor := true,
    frictionAir := 0.01, friction := 0.1, restitution := 0,
    density := 0.001, area := Real.pi * (POCKET_R * POCKET_R),
    mass := 0.001 * (Real.pi * (POCKET_R * POCKET_R)), force := ⟨0, 0⟩, torque := 0 }

/-- A small session state with one resting cue ball on the table. -/
def restState : GameState :=
  { bodies := [testBall 0 "cue" 0], cueBall := testBall 0 "cue" 0,
    pottedBalls := [], isCueBallPotted := false, gesture := idleGesture,
    rollingFriction := 0.0006, nextBodyId := 30 }

/-- A session state with a pocket sensor and a moving red ball. -/
def pocketState : GameState :=
  { bodies := [pocket0, testBall 7 "red-7" 0.2], cueBall := testBall 0 "cue" 0,
    pottedBalls := [], isCueBallPotted := false, gesture := idleGesture,
    rollingFriction := 0.0006, nextBodyId := 30 }

/-- A session state with one ball moving at speed 0.2 and rolling friction
0.1, used to separate the two tick orders. -/
def movingState : GameState :=
  { bodies := [testBall 0 "cue" 0.2], cueBall := testBall 0 "cue" 0.2,
    pottedBalls := [], isCueBallPotted := false, gesture := idleGesture,
    rollingFriction := 0.1, nextBodyId := 30 }

/-- A gesture state in the middle of an aim, with the drag origin at the cue
ball start used by the witnesses. -/
def aimGesture : GestureState :=
  { isDragging := true, dragStart := some ⟨300, 300⟩, cueLine := none,
    isAiming := true, shotPower := 33 }

/-- A session state whose cue ball has been removed from the world. -/
def pottedState : GameState :=
  { bodies := [], cueBall := testBall 0 "cue" 0,
    pottedBalls := ["red-7"], isCueBallPotted := true, gesture := idleGesture,
    rollingFriction := 0.0006, nextBodyId := 30 }

-- ── Helper lemmas on magnitude ──────────────────────────────────────────────

theorem magnitude_nonneg (v : Vec) : 0 ≤ magnitude v := Real.sqrt_nonneg _

theorem magnitude_zero : magnitude ⟨0, 0⟩ = 0 := by
  simp [magnitude]

theorem magnitude_axis (a : ℝ) (h : 0 ≤ a) : magnitude ⟨a, 0⟩ = a := by
  unfold magnitude
  simpa using Real.sqrt_mul_self h

theorem magnitude_eq_zero_iff (v : Vec) : magnitude v = 0 ↔ v = ⟨0, 0⟩ := by
  constructor
  · intro h
    have hle : v.x * v.x + v.y * v.y ≤ 0 := Real.sqrt_eq_zero'.mp h
    have hx : v.x = 0 := by nlinarith [mul_self_nonneg v.x, mul_self_nonneg v.y]
    have hy : v.y = 0 := by nlinarith [mul_self_nonneg v.x, mul_self_nonneg v.y]
    ext <;> simp [hx, hy]
  · intro h
    rw [h]
    exact magnitude_zero

theorem magnitude_scale (v : Vec) (c : ℝ) (hc : 0 ≤ c) :
    magnitude ⟨v.x * c, v.y * c⟩ = c * magnitude v := by
  unfold magnitude
  have h : v.x * c * (v.x * c) + v.y * c * (v.y * c) = c * c * (v.x * v.x + v.y * v.y) := by
    ring
  rw [h, Real.sqrt_mul (mul_self_nonneg c), Real.sqrt_mul_self hc]

-- ── Lemmas on the friction pass ─────────────────────────────────────────────

theorem frictionPassBody_speed (rf : ℝ) (b : Ball) :
    magnitude (frictionPassBody rf b).velocity = speedStep rf (magnitude b.velocity) := by
  unfold frictionPassBody speedStep
  split_ifs with h1 h2
  · exact magnitude_zero
  · have hs : (0 : ℝ) < magnitude b.velocity := lt_trans (by norm_num) h2.2
    have hc : 0 ≤ max 0 (magnitude b.velocity - rf) / magnitude b.velocity :=
      div_nonneg (le_max_left _ _) hs.le
    show magnitude ⟨b.velocity.x * _, b.velocity.y * _⟩ = _
    rw [magnitude_scale _ _ hc, div_mul_cancel₀ _ hs.ne']
  · rfl

theorem speedStep_zero (rf : ℝ) : speedStep rf 0 = 0 := by
  unfold speedStep
  split_ifs with h1 h2
  · rfl
  · exact absurd h2.2 (by norm_num)
  · rfl

theorem speedStep_iter_zero (rf : ℝ) (hr : 0 < rf) :
    ∀ (m : ℕ) (s : ℝ), 0 < s → s ≤ m * rf → (∀ k : ℕ, s - k * rf ≠ 0.15) →
      (speedStep rf)^[m] s = 0 := by
  intro m
  induction m with
  | zero =>
    intro s hs hle _
    exfalso
    have : s ≤ 0 := by simpa using hle
    linarith
  | succ m ih =>
    intro s hs hle hmiss
    rw [Function.iterate_succ_apply]
    rcases lt_trichotomy s 0.15 with hlt | heq | hgt
    · have h1 : speedStep rf s = 0 := by
        unfold speedStep
        rw [if_pos ⟨hs, hlt⟩]
      rw [h1, Function.iterate_fixed (speedStep_zero rf)]
    · exact absurd (by simpa using heq) (hmiss 0)
    · have h1 : speedStep rf s = max 0 (s - rf) := by
        unfold speedStep
        rw [if_neg (by push_neg; intro _; linarith), if_pos ⟨hr, hgt⟩]
      rw [h1]
      rcases le_or_lt s rf with hsr | hrs
      · have hm : max 0 (s - rf) = 0 := max_eq_left (by linarith)
        rw [hm, Function.iterate_fixed (speedStep_zero rf)]
      · have hm : max 0 (s - rf) = s - rf := max_eq_right (by linarith)
        rw [hm]
        apply ih (s - rf) (by linarith)
        · have hc : ((m + 1 : ℕ) : ℝ) * rf = m * rf + rf := by push_cast; ring
          rw [hc] at hle
          linarith
        · intro k
          have h := hmiss (k + 1)
          have hc : s - ((k + 1 : ℕ) : ℝ) * rf = s - rf - k * rf := by push_cast; ring
          rw [hc] at h
          exact h

theorem frictionPass_iter_speed (rf : ℝ) (b : Ball) (n : ℕ) :
    magnitude ((frictionPassBody rf)^[n] b).velocity =
      (speedStep rf)^[n] (magnitude b.velocity) := by
  induction n with
  | zero => rfl
  | succ n ih =>
    rw [Function.iterate_succ_apply', Function.iterate_succ_apply',
      frictionPassBody_speed, ih]

-- ── Claim theorems: C1 and C3 ───────────────────────────────────────────────

/-- C1: for a non-static, non-sensor body in the friction pass, a speed
strictly between 0 and 0.15 zeroes both linear and angular velocity; a
positive rolling friction coefficient together with a speed above 0.15
rescales the velocity to speed max 0 (speed - rf), preserving the direction
(the new velocity is the old one multiplied componentwise by the nonnegative
factor max 0 (speed - rf) / speed); in all remaining cases the body is left
unchanged. -/
theorem frictionPass_spec (rf : ℝ) (b : Ball)
    (hst : b.isStatic = false) (hse : b.isSensor = false) :
    (0 < magnitude b.velocity → magnitude b.velocity < 0.15 →
      beforeUpdateBody rf b = { b with velocity := ⟨0, 0⟩, angularVelocity := 0 }) ∧
    (0 < rf → 0.15 < magnitude b.velocity →
      beforeUpdateBody rf b =
        { b with velocity :=
            ⟨b.velocity.x * (max 0 (magnitude b.velocity - rf) / magnitude b.velocity),
             b.velocity.y * (max 0 (magnitude b.velocity - rf) / magnitude b.velocity)⟩ } ∧
      magnitude (beforeUpdateBody rf b).velocity = max 0 (magnitude b.velocity - rf) ∧
      0 ≤ max 0 (magnitude b.velocity - rf) / magnitude b.velocity) ∧
    (¬(0 < magnitude b.velocity ∧ magnitude b.velocity < 0.15) →
     ¬(0 < rf ∧ 0.15 < magnitude b.velocity) →
      beforeUpdateBody rf b = b) := by
  have hb : beforeUpdateBody rf b = frictionPassBody rf b := by
    unfold beforeUpdateBody
    rw [hst, hse]
    rfl
  refine ⟨?_, ?_, ?_⟩
  · intro h0 h1
    rw [hb]
    unfold frictionPassBody
    rw [if_pos ⟨h0, h1⟩]
  · intro hrf hsp
    have hs : (0 : ℝ) < magnitude b.velocity := lt_trans (by norm_num) hsp
    have hc : 0 ≤ max 0 (magnitude b.velocity - rf) / magnitude b.velocity :=
      div_nonneg (le_max_left _ _) hs.le
    refine ⟨?_, ?_, hc⟩
    · rw [hb]
      unfold frictionPassBody
      rw [if_neg (by push_neg; intro _; linarith), if_pos ⟨hrf, hsp⟩]
    · rw [hb, frictionPassBody_speed]
      unfold speedStep
      rw [if_neg (by push_neg; intro _; linarith), if_pos ⟨hrf, hsp⟩]
  · intro h1 h2
    rw [hb]
    unfold frictionPassBody
    rw [if_neg h1, if_neg h2]

theorem frictionPass_spec_witness :
    beforeUpdateBody 0.05 (testBall 0 "cue" 0.1) =
      { testBall 0 "cue" 0.1 with velocity := ⟨0, 0⟩, angularVelocity := 0 } := by
  have hmag : magnitude (testBall 0 "cue" 0.1).velocity = 0.1 := by
    show magnitude ⟨0.1, 0⟩ = 0.1
    exact magnitude_axis 0.1 (by norm_num)
  exact (frictionPass_spec 0.05 (testBall 0 "cue" 0.1) rfl rfl).1
    (by rw [hmag]; norm_num) (by rw [hmag]; norm_num)

/-- C3 amended: for a rolling friction coefficient r above 0 and a ball of
positive speed s whose speed never lands exactly on the 0.15 stop threshold
along the way (s - k * r differs from 0.15 for every natural k), iterating
the friction pass ceil (s / r) times yields the exact zero velocity vector. -/
theorem frictionPass_reaches_zero (rf : ℝ) (b : Ball) (hr : 0 < rf)
    (h0 : 0 < magnitude b.velocity)
    (hmiss : ∀ k : ℕ, magnitude b.velocity - k * rf ≠ 0.15) :
    ((frictionPassBody rf)^[⌈magnitude b.velocity / rf⌉₊] b).velocity = ⟨0, 0⟩ := by
  have hle : magnitude b.velocity ≤ (⌈magnitude b.velocity / rf⌉₊ : ℝ) * rf := by
    have h := Nat.le_ceil (magnitude b.velocity / rf)
    calc magnitude b.velocity = magnitude b.velocity / rf * rf := by
          field_simp
      _ ≤ (⌈magnitude b.velocity / rf⌉₊ : ℝ) * rf :=
          mul_le_mul_of_nonneg_right h hr.le
  have hkey := speedStep_iter_zero rf hr ⌈magnitude b.velocity / rf⌉₊
    (magnitude b.velocity) h0 hle hmiss
  have htr := frictionPass_iter_speed rf b ⌈magnitude b.velocity / rf⌉₊
  rw [hkey] at htr
  exact (magnitude_eq_zero_iff _).mp htr

theorem frictionPass_reaches_zero_witness :
    ((frictionPassBody 0.1)^[⌈magnitude (testBall 0 "cue" 0.3).velocity / 0.1⌉₊]
        (testBall 0 "cue" 0.3)).velocity = ⟨0, 0⟩ := by
  have hmag : magnitude (testBall 0 "cue" 0.3).velocity = 0.3 := by
    show magnitude ⟨0.3, 0⟩ = 0.3
    exact magnitude_axis 0.3 (by norm_num)
  apply frictionPass_reaches_zero 0.1 (testBall 0 "cue" 0.3) (by norm_num)
    (by rw [hmag]; norm_num)
  intro k
  rw [hmag]
  rcases k with _ | _ | k
  · norm_num
  · norm_num
  · have hk : (2 : ℝ) ≤ ((k + 2 : ℕ) : ℝ) := by
      push_cast
      linarith [Nat.cast_nonneg (α := ℝ) k]
    have : ((k + 2 : ℕ) : ℝ) * 0.1 ≥ 0.2 := by nlinarith
    intro hcontra
    nlinarith

/-- C3 counterexample: a ball whose speed is exactly at the 0.15 threshold is
never slowed at all, so with rolling friction 0.05 it still moves after
ceil (0.15 / 0.05) = 3 ticks of the friction pass, against the claim that any
positive initial speed reaches zero within that bound. -/
theorem frictionPass_stuck_at_threshold :
    ⌈magnitude (testBall 0 "cue" 0.15).velocity / (0.05 : ℝ)⌉₊ = 3 ∧
    ((frictionPassBody 0.05)^[3] (testBall 0 "cue" 0.15)).velocity ≠ ⟨0, 0⟩ := by
  have hmag : magnitude (testBall 0 "cue" 0.15).velocity = 0.15 := by
    show magnitude ⟨0.15, 0⟩ = 0.15
    exact magnitude_axis 0.15 (by norm_num)
  have hfix : frictionPassBody 0.05 (testBall 0 "cue" 0.15) = testBall 0 "cue" 0.15 := by
    unfold frictionPassBody
    rw [hmag]
    rw [if_neg (by norm_num), if_neg (by norm_num)]
  constructor
  · rw [hmag]
    rw [show (0.15 : ℝ) / 0.05 = 3 by norm_num]
    norm_num
  · rw [Function.iterate_fixed hfix]
    show (⟨0.15, 0⟩ : Vec) ≠ ⟨0, 0⟩
    intro h
    have hx : (0.15 : ℝ) = 0 := congrArg Vec.x h
    norm_num at hx

-- ── Claim theorems: C4 and C5 ───────────────────────────────────────────────

/-- C5: with no drag in progress, a pointer-down event starts the aiming
state exactly when every non-static, non-sensor body is below the rest
threshold and the pointer lies within BALL_R * 4 of the cue ball position;
in that case the drag flag is set, the drag origin records the cue ball
position and the aiming display turns on, and in every other case the
gesture state is returned unchanged. -/
theorem onMouseDown_spec (bodies : List Ball) (cue : Ball) (st : GestureState)
    (pos : Vec) (h : st.isDragging = false) :
    ((onMouseDown bodies cue st pos).isDragging = true ↔
      (allBallsStopped bodies ∧ magnitude (Vec.sub pos cue.position) < BALL_R * 4)) ∧
    (allBallsStopped bodies → magnitude (Vec.sub pos cue.position) < BALL_R * 4 →
      onMouseDown bodies cue st pos =
        { st with isDragging := true, dragStart := some cue.position,
                  isAiming := true }) ∧
    (¬ (allBallsStopped bodies ∧ magnitude (Vec.sub pos cue.position) < BALL_R * 4) →
      onMouseDown bodies cue st pos = st) := by
  by_cases hA : allBallsStopped bodies
  · by_cases hB : magnitude (Vec.sub pos cue.position) < BALL_R * 4
    · have he : onMouseDown bodies cue st pos =
          { st with isDragging := true, dragStart := some cue.position,
                    isAiming := true } := by
        unfold onMouseDown
        rw [if_neg (not_not_intro hA), if_pos hB]
      exact ⟨by rw [he]; exact ⟨fun _ => ⟨hA, hB⟩, fun _ => rfl⟩,
        fun _ _ => he, fun hc => absurd ⟨hA, hB⟩ hc⟩
    · have he : onMouseDown bodies cue st pos = st := by
        unfold onMouseDown
        rw [if_neg (not_not_intro hA), if_neg hB]
      refine ⟨?_, fun _ hB2 => absurd hB2 hB, fun _ => he⟩
      rw [he, h]
      exact ⟨fun hf => absurd hf (by simp), fun hc => absurd hc.2 hB⟩
  · have he : onMouseDown bodies cue st pos = st := by
      unfold onMouseDown
      rw [if_pos hA]
    refine ⟨?_, fun hA2 _ => absurd hA2 hA, fun _ => he⟩
    rw [he, h]
    exact ⟨fun hf => absurd hf (by simp), fun hc => absurd hc.1 hA⟩

theorem onMouseDown_spec_witness :
    (onMouseDown [testBall 0 "cue" 0] (testBall 0 "cue" 0) idleGesture
      ⟨305, 300⟩).isDragging = true := by
  have hstop : allBallsStopped [testBall 0 "cue" 0] := by
    intro b hb
    rw [List.mem_filter] at hb
    have hbm : b = testBall 0 "cue" 0 := List.mem_singleton.mp hb.1
    rw [hbm]
    show magnitude ⟨0, 0⟩ < 0.1
    rw [magnitude_zero]
    norm_num
  have hsub : Vec.sub (⟨305, 300⟩ : Vec) (testBall 0 "cue" 0).position = ⟨5, 0⟩ := by
    show (⟨(305 : ℝ) - 300, (300 : ℝ) - 300⟩ : Vec) = ⟨5, 0⟩
    exact Vec.ext (by norm_num) (by norm_num)
  have hdist : magnitude (Vec.sub (⟨305, 300⟩ : Vec) (testBall 0 "cue" 0).position)
      < BALL_R * 4 := by
    rw [hsub, magnitude_axis 5 (by norm_num)]
    norm_num [BALL_R]
  exact ((onMouseDown_spec [testBall 0 "cue" 0] (testBall 0 "cue" 0) idleGesture
    ⟨305, 300⟩ rfl).1).mpr ⟨hstop, hdist⟩

/-- C4: on pointer release during a drag, with d the pull distance clamped at
300: if d exceeds 5, the accumulated force of the cue ball grows by the
vector that is the nonnegative multiple shotForceScale of the pull vector
(cue ball position minus pointer, i.e. directed from the pointer toward the
cue ball), whose magnitude is d / 300 * 0.08, with no torque added since the
force acts at the body centre; if d is at most 5 the cue ball is untouched;
in both cases the gesture state is discarded and the shot power display reset
to 0. -/
theorem onMouseUp_spec (st : GestureState) (cue : Ball) (pos : Vec)
    (hd : st.isDragging = true) (hs : st.dragStart.isSome = true) :
    (onMouseUp st cue pos).1 = idleGesture ∧
    (pullPower cue pos ≤ 5 → (onMouseUp st cue pos).2 = cue) ∧
    (5 < pullPower cue pos →
      (onMouseUp st cue pos).2 =
        { cue with force :=
            ⟨cue.force.x + (cue.position.x - pos.x) * shotForceScale cue pos,
             cue.force.y + (cue.position.y - pos.y) * shotForceScale cue pos⟩ } ∧
      magnitude ⟨(cue.position.x - pos.x) * shotForceScale cue pos,
                 (cue.position.y - pos.y) * shotForceScale cue pos⟩
        = pullPower cue pos / 300 * 0.08 ∧
      0 ≤ shotForceScale cue pos) := by
  have hnone : st.dragStart.isNone = false := by
    rcases hopt : st.dragStart with _ | v
    · rw [hopt] at hs
      exact absurd hs (by simp)
    · rfl
  have hguard : (!st.isDragging || st.dragStart.isNone) = false := by
    rw [hd, hnone]
    rfl
  have hm : onMouseUp st cue pos =
      (idleGesture,
       if min (magnitude (Vec.sub cue.position pos)) 300 > 5 then
         applyForce cue cue.position
           ⟨cosAtan2 (cue.position.y - pos.y) (cue.position.x - pos.x) *
              (min (magnitude (Vec.sub cue.position pos)) 300 / 300 * 0.08),
            sinAtan2 (cue.position.y - pos.y) (cue.position.x - pos.x) *
              (min (magnitude (Vec.sub cue.position pos)) 300 / 300 * 0.08)⟩
       else cue) := by
    unfold onMouseUp
    rw [hguard]
    rfl
  refine ⟨by rw [hm], ?_, ?_⟩
  · intro hle
    rw [hm]
    dsimp only
    split_ifs with hif
    · exact absurd hif (not_lt.mpr hle)
    · rfl
  · intro hgt
    have hdpos : 0 < magnitude (Vec.sub cue.position pos) :=
      lt_of_lt_of_le (lt_trans (by norm_num) hgt) (min_le_left _ _)
    have hFnn : 0 ≤ pullPower cue pos / 300 * 0.08 := by
      have h0 : 0 ≤ pullPower cue pos :=
        le_min (magnitude_nonneg _) (by norm_num)
      positivity
    have hscale_nn : 0 ≤ shotForceScale cue pos := by
      unfold shotForceScale
      exact div_nonneg hFnn hdpos.le
    have hsnd : (onMouseUp st cue pos).2 =
        applyForce cue cue.position
          ⟨cosAtan2 (cue.position.y - pos.y) (cue.position.x - pos.x) *
             (pullPower cue pos / 300 * 0.08),
           sinAtan2 (cue.position.y - pos.y) (cue.position.x - pos.x) *
             (pullPower cue pos / 300 * 0.08)⟩ := by
      rw [hm]
      dsimp only
      split_ifs with hif
      · rfl
      · exact absurd hgt hif
    refine ⟨?_, ?_, hscale_nn⟩
    · rw [hsnd]
      unfold applyForce cosAtan2 sinAtan2 shotForceScale
      have hdist_eq : Real.sqrt ((cue.position.x - pos.x) * (cue.position.x - pos.x) +
          (cue.position.y - pos.y) * (cue.position.y - pos.y)) =
          magnitude (Vec.sub cue.position pos) := rfl
      simp only [Ball.mk.injEq, Vec.mk.injEq, hdist_eq, true_and, and_true]
      refine ⟨⟨by ring, by ring⟩, by ring⟩
    · have hvm : magnitude ⟨(cue.position.x - pos.x) * shotForceScale cue pos,
          (cue.position.y - pos.y) * shotForceScale cue pos⟩ =
          shotForceScale cue pos * magnitude ⟨cue.position.x - pos.x,
            cue.position.y - pos.y⟩ :=
        magnitude_scale ⟨cue.position.x - pos.x, cue.position.y - pos.y⟩
          (shotForceScale cue pos) hscale_nn
      have hveq : magnitude ⟨cue.position.x - pos.x, cue.position.y - pos.y⟩ =
          magnitude (Vec.sub cue.position pos) := rfl
      rw [hvm, hveq]
      unfold shotForceScale
      rw [div_mul_cancel₀ _ hdpos.ne']

theorem onMouseUp_spec_witness :
    (onMouseUp aimGesture (testBall 0 "cue" 0) ⟨200, 300⟩).1 = idleGesture ∧
    (onMouseUp aimGesture (testBall 0 "cue" 0) ⟨200, 300⟩).2.force = ⟨2 / 75, 0⟩ := by
  have h := onMouseUp_spec aimGesture (testBall 0 "cue" 0) ⟨200, 300⟩ rfl rfl
  have hsub : Vec.sub (testBall 0 "cue" 0).position (⟨200, 300⟩ : Vec) = ⟨100, 0⟩ := by
    show (⟨(300 : ℝ) - 200, (300 : ℝ) - 300⟩ : Vec) = ⟨100, 0⟩
    exact Vec.ext (by norm_num) (by norm_num)
  have hmagsub : magnitude (Vec.sub (testBall 0 "cue" 0).position ⟨200, 300⟩) = 100 := by
    rw [hsub]
    exact magnitude_axis 100 (by norm_num)
  have hpull : pullPower (testBall 0 "cue" 0) ⟨200, 300⟩ = 100 := by
    unfold pullPower
    rw [hmagsub]
    exact min_eq_left (by norm_num)
  have hscale : shotForceScale (testBall 0 "cue" 0) ⟨200, 300⟩ = 0.08 / 300 := by
    unfold shotForceScale
    rw [hpull, hmagsub]
    norm_num
  have h3 := h.2.2 (by rw [hpull]; norm_num)
  refine ⟨h.1, ?_⟩
  rw [h3.1]
  show (⟨(testBall 0 "cue" 0).force.x +
      ((testBall 0 "cue" 0).position.x - (200 : ℝ)) *
        shotForceScale (testBall 0 "cue" 0) ⟨200, 300⟩,
    (testBall 0 "cue" 0).force.y +
      ((testBall 0 "cue" 0).position.y - (300 : ℝ)) *
        shotForceScale (testBall 0 "cue" 0) ⟨200, 300⟩⟩ : Vec) = ⟨2 / 75, 0⟩
  rw [hscale]
  refine Vec.ext ?_ ?_
  · show (0 : ℝ) + (300 - 200) * (0.08 / 300) = 2 / 75
    norm_num
  · show (0 : ℝ) + (300 - 300) * (0.08 / 300) = 0
    norm_num

-- ── Claim theorems: C6 ──────────────────────────────────────────────────────

/-- C6: for a contact-start pair made of a pocket sensor and a non-static
body, in either order: the body is removed from the world; when its label is
the cue label the cue-ball-in-hand flag is raised and the potted list is
untouched, and otherwise the label is appended at the end of the potted list
and the flag is untouched. -/
theorem pocketContact_spec (s : GameState) (p ball : Ball)
    (hp : strStartsWith p.label "pocket-" = true)
    (hb : strStartsWith ball.label "pocket-" = false)
    (hst : ball.isStatic = false) :
    handlePair s p ball = handlePair s ball p ∧
    (ball.label = "cue" →
      handlePair s p ball =
        { s with bodies := removeBody s.bodies ball, isCueBallPotted := true }) ∧
    (ball.label ≠ "cue" →
      handlePair s p ball =
        { s with bodies := removeBody s.bodies ball,
                 pottedBalls := s.pottedBalls ++ [ball.label] }) := by
  have h1 : handlePair s p ball = pocketBall s ball := by
    unfold handlePair
    rw [if_pos hp]
  have h2 : handlePair s ball p = pocketBall s ball := by
    unfold handlePair
    rw [if_neg (by simp [hb]), if_pos hp]
  refine ⟨h1.trans h2.symm, ?_, ?_⟩
  · intro hc
    rw [h1]
    unfold pocketBall
    rw [if_neg (by simp [hst]), if_pos hc]
  · intro hc
    rw [h1]
    unfold pocketBall
    rw [if_neg (by simp [hst]), if_neg hc]

theorem pocketContact_spec_witness :
    (handlePair pocketState pocket0 (testBall 7 "red-7" 0.2)).pottedBalls = ["red-7"] ∧
    (handlePair pocketState pocket0 (testBall 7 "red-7" 0.2)).isCueBallPotted = false ∧
    (handlePair pocketState pocket0 (testBall 7 "red-7" 0.2)).bodies.map Ball.id = [10] := by
  have h := pocketContact_spec pocketState pocket0 (testBall 7 "red-7" 0.2)
    (by decide) (by decide) rfl
  have he := h.2.2 (by decide)
  refine ⟨?_, ?_, ?_⟩
  · rw [he]
    rfl
  · rw [he]
    rfl
  · rw [he]
    rfl

-- ── Claim theorems: C7 ──────────────────────────────────────────────────────

theorem map_id_not_mem (l : List Ball) (g : Ball → Ball) (i : ℕ)
    (hid : ∀ b, (g b).id = b.id) (h : i ∉ l.map Ball.id) :
    i ∉ (l.map g).map Ball.id := by
  rw [List.map_map]
  intro hmem
  obtain ⟨b, hbm, hbid⟩ := List.mem_map.mp hmem
  apply h
  refine List.mem_map.mpr ⟨b, hbm, ?_⟩
  rw [← hid b]
  exact hbid

theorem handlePair_bodies_subset (s : GameState) (A B b : Ball)
    (hb : b ∈ (handlePair s A B).bodies) : b ∈ s.bodies := by
  unfold handlePair pocketBall removeBody at hb
  split_ifs at hb <;> first | exact hb | exact List.mem_of_mem_filter hb

theorem collisionStartHandler_not_mem (pairs : List (Ball × Ball)) :
    ∀ (s : GameState) (i : ℕ), i ∉ s.bodies.map Ball.id →
      i ∉ (collisionStartHandler s pairs).bodies.map Ball.id := by
  induction pairs with
  | nil => intro s i h; exact h
  | cons p ps ih =>
    intro s i h
    unfold collisionStartHandler
    rw [List.foldl_cons]
    apply ih
    intro hmem
    obtain ⟨b, hbm, hbid⟩ := List.mem_map.mp hmem
    exact h (List.mem_map.mpr ⟨b, handlePair_bodies_subset s p.1 p.2 b hbm, hbid⟩)

/-- C7: a body id absent from the world stays absent across every step of the
system between explicit resets: an id-preserving engine integration, the
friction pass, any batch of pocket contact events, the three pointer
handlers, and a global physics change never re-add it. -/
theorem removedBody_stays_removed (e : Step) (s : GameState) (i : ℕ)
    (hf : ∀ g, e = Step.engineUpdate g → ∀ b, (g b).id = b.id)
    (h : i ∉ s.bodies.map Ball.id) :
    i ∉ (stepRun e s).bodies.map Ball.id := by
  cases e with
  | engineUpdate g =>
    exact map_id_not_mem s.bodies g i (hf g rfl) h
  | frictionPass =>
    show i ∉ ((s.bodies.map (beforeUpdateBody s.rollingFriction)).map Ball.id)
    refine map_id_not_mem s.bodies (beforeUpdateBody s.rollingFriction) i ?_ h
    intro b
    unfold beforeUpdateBody frictionPassBody
    split_ifs <;> rfl
  | collisionStart pairs =>
    exact collisionStartHandler_not_mem pairs s i h
  | mouseDown pos => exact h
  | mouseMove pos => exact h
  | mouseUp pos =>
    show i ∉ ((s.bodies.map fun b =>
      if b.id == (onMouseUp s.gesture s.cueBall pos).2.id then
        (onMouseUp s.gesture s.cueBall pos).2 else b).map Ball.id)
    refine map_id_not_mem s.bodies _ i ?_ h
    intro b
    by_cases hbi : (b.id == (onMouseUp s.gesture s.cueBall pos).2.id) = true
    · rw [if_pos hbi]
      exact (beq_iff_eq.mp hbi).symm
    · rw [if_neg hbi]
  | setPhysics fAir rf dn =>
    show i ∉ ((s.bodies.map fun b =>
      if !b.isStatic && !b.isSensor then settingsBodyUpdate fAir dn b else b).map Ball.id)
    refine map_id_not_mem s.bodies _ i ?_ h
    intro b
    split_ifs <;> rfl

theorem removedBody_stays_removed_witness :
    (5 : ℕ) ∉ (stepRun Step.frictionPass restState).bodies.map Ball.id := by
  apply removedBody_stays_removed Step.frictionPass restState 5
  · intro g hg
    exact absurd hg (by intro hc; cases hc)
  · intro hmem
    have : (5 : ℕ) ∈ [(0 : ℕ)] := hmem
    simp at this

-- ── Claim theorems: C8 ──────────────────────────────────────────────────────

theorem updateById_map_id (l : List Ball) (x : Ball) :
    (updateById l x).map Ball.id = l.map Ball.id := by
  induction l with
  | nil => rfl
  | cons b t ih =>
    simp only [updateById, List.map_cons] at ih ⊢
    rw [ih]
    by_cases hb : (b.id == x.id) = true
    · rw [if_pos hb, beq_iff_eq.mp hb]
    · rw [if_neg hb]

theorem any_id_updateById (l : List Ball) (x : Ball) (j : ℕ) :
    (updateById l x).any (fun b => b.id == j) = l.any (fun b => b.id == j) := by
  induction l with
  | nil => rfl
  | cons b t ih =>
    simp only [updateById, List.map_cons, List.any_cons] at ih ⊢
    rw [ih]
    by_cases hb : (b.id == x.id) = true
    · rw [if_pos hb, beq_iff_eq.mp hb]
    · rw [if_neg hb]

theorem updateById_idem (l : List Ball) (x : Ball) :
    updateById (updateById l x) x = updateById l x := by
  induction l with
  | nil => rfl
  | cons b t ih =>
    simp only [updateById, List.map_cons] at ih ⊢
    rw [ih]
    by_cases hb : (b.id == x.id) = true
    · simp [hb]
    · simp [hb]

theorem updateById_append (l m : List Ball) (x : Ball) :
    updateById (l ++ m) x = updateById l x ++ updateById m x := by
  simp [updateById]

theorem updateById_singleton_self (x : Ball) : updateById [x] x = [x] := by
  simp [updateById]

theorem any_id_iff_mem (l : List Ball) (j : ℕ) :
    l.any (fun b => b.id == j) = true ↔ j ∈ l.map Ball.id := by
  simp only [List.any_eq_true, beq_iff_eq, List.mem_map]

/-- C8: resetCueBall is total and idempotent over both the present and the
absent cue ball states: it puts the cue ball at its fixed start spot with
zero linear and angular velocity, clears the cue-ball-in-hand flag, leaves a
body with the cue ball id in the world, keeps the body count unchanged when
the cue ball was present and grows it by exactly one when it was absent, and
running it twice gives the same state as running it once. -/
theorem resetCueBall_spec (s : GameState) :
    resetCueBall (resetCueBall s) = resetCueBall s ∧
    (resetCueBall s).cueBall.position =
      ⟨CUSHION + TABLE_WIDTH * 0.25, CUSHION + TABLE_HEIGHT / 2⟩ ∧
    (resetCueBall s).cueBall.velocity = ⟨0, 0⟩ ∧
    (resetCueBall s).cueBall.angularVelocity = 0 ∧
    (resetCueBall s).isCueBallPotted = false ∧
    s.cueBall.id ∈ (resetCueBall s).bodies.map Ball.id ∧
    (s.cueBall.id ∈ s.bodies.map Ball.id →
      (resetCueBall s).bodies.length = s.bodies.length) ∧
    (s.cueBall.id ∉ s.bodies.map Ball.id →
      (resetCueBall s).bodies.length = s.bodies.length + 1) := by
  by_cases hmem : s.cueBall.id ∈ s.bodies.map Ball.id
  · have hb : s.bodies.any (fun b => b.id == s.cueBall.id) = true :=
      (any_id_iff_mem _ _).mpr hmem
    have h1 : resetCueBall s =
        { s with
          cueBall := cueAtStart s.cueBall,
          bodies := updateById s.bodies (cueAtStart s.cueBall),
          isCueBallPotted := false } := by
      unfold resetCueBall
      rw [if_pos hb]
    refine ⟨?_, by rw [h1]; rfl, by rw [h1]; rfl, by rw [h1]; rfl, by rw [h1],
      ?_, ?_, ?_⟩
    · have hb2 : (updateById s.bodies (cueAtStart s.cueBall)).any
          (fun b => b.id == (cueAtStart s.cueBall).id) = true := by
        have hcid : (cueAtStart s.cueBall).id = s.cueBall.id := rfl
        rw [hcid, any_id_updateById]
        exact hb
      rw [h1]
      unfold resetCueBall
      dsimp only
      rw [show cueAtStart (cueAtStart s.cueBall) = cueAtStart s.cueBall from rfl]
      rw [if_pos hb2]
      rw [updateById_idem]
    · rw [h1]
      show s.cueBall.id ∈ (updateById s.bodies (cueAtStart s.cueBall)).map Ball.id
      rw [updateById_map_id]
      exact hmem
    · intro _
      rw [h1]
      show (updateById s.bodies (cueAtStart s.cueBall)).length = s.bodies.length
      simp [updateById]
    · intro habs
      exact absurd hmem habs
  · have hb : s.bodies.any (fun b => b.id == s.cueBall.id) = false := by
      rw [Bool.eq_false_iff]
      intro hc
      exact hmem ((any_id_iff_mem _ _).mp hc)
    have h1 : resetCueBall s =
        { s with
          cueBall := cueAtStart s.cueBall,
          bodies := updateById s.bodies (cueAtStart s.cueBall) ++ [cueAtStart s.cueBall],
          isCueBallPotted := false } := by
      unfold resetCueBall
      rw [if_neg (by simp [hb])]
    refine ⟨?_, by rw [h1]; rfl, by rw [h1]; rfl, by rw [h1]; rfl, by rw [h1],
      ?_, ?_, ?_⟩
    · have hb2 : ((updateById s.bodies (cueAtStart s.cueBall)
          ++ [cueAtStart s.cueBall]).any
          (fun b => b.id == (cueAtStart s.cueBall).id)) = true := by
        rw [List.any_append]
        simp
      rw [h1]
      unfold resetCueBall
      dsimp only
      rw [show cueAtStart (cueAtStart s.cueBall) = cueAtStart s.cueBall from rfl]
      rw [if_pos hb2]
      rw [updateById_append, updateById_idem, updateById_singleton_self]
    · rw [h1]
      show s.cueBall.id ∈ ((updateById s.bodies (cueAtStart s.cueBall)
        ++ [cueAtStart s.cueBall]).map Ball.id)
      rw [List.map_append]
      refine List.mem_append.mpr (Or.inr ?_)
      show s.cueBall.id ∈ [(cueAtStart s.cueBall).id]
      simp [cueAtStart]
    · intro hpres
      exact absurd hpres hmem
    · intro _
      rw [h1]
      show (updateById s.bodies (cueAtStart s.cueBall)
        ++ [cueAtStart s.cueBall]).length = s.bodies.length + 1
      simp [updateById]

theorem resetCueBall_spec_witness :
    (resetCueBall pottedState).bodies.length = 1 ∧
    (resetCueBall pottedState).isCueBallPotted = false := by
  have h := resetCueBall_spec pottedState
  have habs : pottedState.cueBall.id ∉ pottedState.bodies.map Ball.id := by
    intro hc
    exact absurd hc (by simp [pottedState])
  refine ⟨?_, h.2.2.2.2.1⟩
  have hlen := h.2.2.2.2.2.2.2 habs
  rw [hlen]
  rfl

-- ── Claim theorems: C9 ──────────────────────────────────────────────────────

theorem filter_keep_eq (l : List Ball) :
    l.filter (fun b => !(!b.isStatic && !b.isSensor)) =
      l.filter (fun b => b.isStatic || b.isSensor) := by
  induction l with
  | nil => rfl
  | cons b t ih =>
    cases h1 : b.isStatic <;> cases h2 : b.isSensor <;>
      simp [List.filter_cons, h1, h2, ih]

/-- C9: resetGame keeps exactly the static and sensor bodies of the previous
world, in place, appends the canonical rack of 22 fresh balls, namely the cue
ball followed by red-0 through red-14 and the six colours, with the cue ball
at its start spot and the colours on their fixed spots, and clears the potted
list and the cue-ball-in-hand flag. -/
theorem resetGame_spec (s : GameState) :
    (resetGame s).bodies =
      s.bodies.filter (fun b => b.isStatic || b.isSensor)
        ++ ((createBalls s.nextBodyId).1 :: (createBalls s.nextBodyId).2) ∧
    ((createBalls s.nextBodyId).1 :: (createBalls s.nextBodyId).2).map Ball.label =
      ["cue", "red-0", "red-1", "red-2", "red-3", "red-4", "red-5", "red-6",
       "red-7", "red-8", "red-9", "red-10", "red-11", "red-12", "red-13",
       "red-14", "yellow", "green", "brown", "blue", "pink", "black"] ∧
    ((createBalls s.nextBodyId).1 :: (createBalls s.nextBodyId).2).length = 22 ∧
    (createBalls s.nextBodyId).1.position =
      ⟨CUSHION + TABLE_WIDTH * 0.25, CUSHION + TABLE_HEIGHT / 2⟩ ∧
    (colourBalls s.nextBodyId).map Ball.position =
      [⟨280, 208⟩, ⟨280, 472⟩, ⟨280, 340⟩, ⟨640, 340⟩, ⟨823.75, 340⟩,
       ⟨1108, 340⟩] ∧
    (resetGame s).pottedBalls = [] ∧
    (resetGame s).isCueBallPotted = false := by
  refine ⟨?_, rfl, rfl, rfl, ?_, rfl, rfl⟩
  · rw [← filter_keep_eq]
    rfl
  · simp only [colourBalls, createBall, List.map_cons, List.map_nil]
    norm_num [CUSHION, TABLE_WIDTH, TABLE_HEIGHT, BALL_R, Vec.mk.injEq]

-- ── Claim theorems: C10 ─────────────────────────────────────────────────────

/-- C10: applyPhysicsSettings stores the rolling friction for the friction
pass, maps every non-static, non-sensor body to the body with air drag fAir
and mass re-derived as dn times its area while its position, velocity,
angular velocity, restitution and label are untouched, leaves static and
sensor bodies entirely unchanged, and changes nothing else in the session
state. -/
theorem applyPhysicsSettings_spec (fAir rf dn : ℝ) (s : GameState) :
    (applyPhysicsSettings fAir rf dn s).rollingFriction = rf ∧
    (applyPhysicsSettings fAir rf dn s).bodies =
      s.bodies.map (fun b =>
        if !b.isStatic && !b.isSensor then settingsBodyUpdate fAir dn b else b) ∧
    (∀ b : Ball, b.isStatic = false → b.isSensor = false →
      (settingsBodyUpdate fAir dn b).frictionAir = fAir ∧
      (settingsBodyUpdate fAir dn b).mass = dn * b.area ∧
      (settingsBodyUpdate fAir dn b).density = dn ∧
      (settingsBodyUpdate fAir dn b).position = b.position ∧
      (settingsBodyUpdate fAir dn b).velocity = b.velocity ∧
      (settingsBodyUpdate fAir dn b).angularVelocity = b.angularVelocity ∧
      (settingsBodyUpdate fAir dn b).restitution = b.restitution ∧
      (settingsBodyUpdate fAir dn b).label = b.label) ∧
    (∀ b : Ball, b.isStatic = true ∨ b.isSensor = true →
      (if !b.isStatic && !b.isSensor then settingsBodyUpdate fAir dn b else b) = b) ∧
    (applyPhysicsSettings fAir rf dn s).pottedBalls = s.pottedBalls ∧
    (applyPhysicsSettings fAir rf dn s).isCueBallPotted = s.isCueBallPotted ∧
    (applyPhysicsSettings fAir rf dn s).gesture = s.gesture ∧
    (applyPhysicsSettings fAir rf dn s).cueBall = s.cueBall := by
  refine ⟨rfl, rfl, ?_, ?_, rfl, rfl, rfl, rfl⟩
  · intro b _ _
    exact ⟨rfl, rfl, rfl, rfl, rfl, rfl, rfl, rfl⟩
  · intro b hb
    rcases hb with hb | hb
    · simp [hb]
    · simp [hb]

theorem applyPhysicsSettings_spec_witness :
    (applyPhysicsSettings 0.02 0.001 0.006 restState).rollingFriction = 0.001 ∧
    (settingsBodyUpdate 0.02 0.006 (testBall 0 "cue" 0)).frictionAir = 0.02 ∧
    (settingsBodyUpdate 0.02 0.006 (testBall 0 "cue" 0)).mass =
      0.006 * (testBall 0 "cue" 0).area := by
  have h := applyPhysicsSettings_spec 0.02 0.001 0.006 restState
  have hb := h.2.2.1 (testBall 0 "cue" 0) rfl rfl
  exact ⟨h.1, hb.1, hb.2.1⟩

-- ── Claim theorems: C2 ──────────────────────────────────────────────────────

/-- C2 counterexample: the two phase orders are observably different. With
rolling friction 0.1, a single ball at speed 0.2 and an integration phase
that halves speeds (air drag one half): the implemented order (friction pass
first, then integration) leaves speed 0.05, while the claimed order
(integrate, resolve, notify, then friction) ends with the ball stopped at
exact zero, because its post-drag speed 0.1 falls below the 0.15 stop
threshold. -/
theorem tick_order_counterexample :
    (engineTick (airDrag 0.5) [] movingState).bodies.map Ball.velocity ≠
      (specOrderTick (airDrag 0.5) [] movingState).bodies.map Ball.velocity := by
  have hmag2 : magnitude (testBall 0 "cue" 0.2).velocity = 0.2 := by
    show magnitude ⟨0.2, 0⟩ = 0.2
    exact magnitude_axis 0.2 (by norm_num)
  have hmag1 : magnitude (testBall 0 "cue" 0.1).velocity = 0.1 := by
    show magnitude ⟨0.1, 0⟩ = 0.1
    exact magnitude_axis 0.1 (by norm_num)
  have hstep1 : frictionPassBody 0.1 (testBall 0 "cue" 0.2) = testBall 0 "cue" 0.1 := by
    unfold frictionPassBody
    rw [hmag2]
    rw [if_neg (by norm_num), if_pos (by norm_num)]
    refine Ball.ext rfl rfl rfl ?_ rfl rfl rfl rfl rfl rfl rfl rfl rfl rfl rfl
    have hmax : max (0 : ℝ) (0.2 - 0.1) = 0.1 := by
      rw [max_eq_right (by norm_num)]
      norm_num
    show (⟨(testBall 0 "cue" 0.2).velocity.x * (max 0 (0.2 - 0.1) / 0.2),
      (testBall 0 "cue" 0.2).velocity.y * (max 0 (0.2 - 0.1) / 0.2)⟩ : Vec) = ⟨0.1, 0⟩
    rw [hmax]
    refine Vec.ext ?_ ?_
    · show (0.2 : ℝ) * (0.1 / 0.2) = 0.1
      norm_num
    · show (0 : ℝ) * (0.1 / 0.2) = 0
      norm_num
  have hdrag1 : airDrag 0.5 (testBall 0 "cue" 0.1) = testBall 0 "cue" 0.05 := by
    unfold airDrag
    refine Ball.ext rfl rfl rfl ?_ rfl rfl rfl rfl rfl rfl rfl rfl rfl rfl rfl
    show (⟨(0.1 : ℝ) * (1 - 0.5), (0 : ℝ) * (1 - 0.5)⟩ : Vec) = ⟨0.05, 0⟩
    refine Vec.ext ?_ ?_ <;> norm_num
  have hdrag2 : airDrag 0.5 (testBall 0 "cue" 0.2) = testBall 0 "cue" 0.1 := by
    unfold airDrag
    refine Ball.ext rfl rfl rfl ?_ rfl rfl rfl rfl rfl rfl rfl rfl rfl rfl rfl
    show (⟨(0.2 : ℝ) * (1 - 0.5), (0 : ℝ) * (1 - 0.5)⟩ : Vec) = ⟨0.1, 0⟩
    refine Vec.ext ?_ ?_ <;> norm_num
  have hstop : frictionPassBody 0.1 (testBall 0 "cue" 0.1) =
      { testBall 0 "cue" 0.1 with velocity := ⟨0, 0⟩, angularVelocity := 0 } := by
    unfold frictionPassBody
    rw [hmag1]
    rw [if_pos (by norm_num)]
  have hL : (engineTick (airDrag 0.5) [] movingState).bodies.map Ball.velocity =
      [(airDrag 0.5 (frictionPassBody 0.1 (testBall 0 "cue" 0.2))).velocity] := rfl
  have hR : (specOrderTick (airDrag 0.5) [] movingState).bodies.map Ball.velocity =
      [(frictionPassBody 0.1 (airDrag 0.5 (testBall 0 "cue" 0.2))).velocity] := rfl
  rw [hL, hR, hstep1, hdrag1, hdrag2, hstop]
  intro heq
  injection heq with h1 _
  have hx : (0.05 : ℝ) = 0 := congrArg Vec.x h1
  norm_num at hx

/-- C2 amended: within one engine tick the friction pass runs first, before
integration, collision resolution and the sensor notifications; consequently,
across two consecutive ticks, the friction pass of the later tick runs right
after the integration, collision resolution and notifications of the earlier
tick, which is the order the specification describes shifted by one tick. -/
theorem engineTick_order (f g : Ball → Ball) (ps qs : List (Ball × Ball))
    (s : GameState) :
    engineTick f ps s = collisionStartHandler (engineIntegrate f (frictionEvent s)) ps ∧
    engineTick f ps (engineTick g qs s) =
      collisionStartHandler
        (engineIntegrate f (specOrderTick g qs (frictionEvent s))) ps :=
  ⟨rfl, rfl⟩

end
